import Mathlib

/-!
Shallow embedding of `src/bot.py` (a minimal Telegram chat-bot front end)
and verification of the specification's claims about it.

Modelling conventions:
* Pure data (constants, the command registry, keyboards) is translated
  directly.
* Each handler is modelled as a function from the relevant fields of the
  inbound `Update` plus a transport oracle `ok : Nat → Bool` (whether the
  n-th transport call made by that handler invocation succeeds) to the
  ordered trace of transport calls it attempts; each trace entry records
  the call and whether it succeeded.  An exception raised by a transport
  call corresponds to `ok n = false`, and the source's `try`/`except`
  structure determines which calls follow.
* Python truthiness of strings (`if not query.data`) is modelled by
  emptiness of the underlying character list; an absent object is `none`.
* Logging is outside the model (the spec explicitly excludes process
  logging from scope), and `update.effective_user` is assumed present, as
  the transport guarantees for the events modelled here.
-/

/-- Constants from bot.py lines 14-17. -/
def LOTTERY_URL : String := "https://tinyurl.com/muwymx93"

def BUTTON_TEXT : String := "Play lottery"

def START_MESSAGE : String := "Click the button below to play lottery:"

def MENU_TITLE : String := "📋 Command Menu"

/-- The acknowledgement text sent by the `start` handler (inline literal at
bot.py lines 35-37 and 145-147). -/
def startAckText : String :=
  "Bot started. Use /play to open Lottery or /menu to see available commands."

/-- `telegram.BotCommand`: a command name plus a human-readable description. -/
structure BotCommand where
  command : String
  description : String
deriving DecidableEq

/-- The command registry, bot.py lines 21-25. -/
def BOT_COMMANDS : List BotCommand :=
  [⟨"start", "Start the bot"⟩, ⟨"play", "Open Lottery"⟩, ⟨"menu", "Show command menu"⟩]

/-- An inline keyboard button: either an external-link action (`url=`) or a
callback action (`callback_data=`). -/
inductive InlineButton where
  | urlButton (label : String) (url : String)
  | callbackButton (label : String) (payload : String)
deriving DecidableEq

/-- One transport call made by a handler: either the button-press
acknowledgement primitive `query.answer(text?, show_alert)` or a
`reply_text(text, parse_mode?, reply_markup?)` send. -/
inductive BotCall where
  | answer (text : Option String) (showAlert : Bool)
  | replyText (text : String) (parseMode : Option String)
      (replyMarkup : Option (List (List InlineButton)))
deriving DecidableEq

def isAnswer : BotCall → Bool
  | BotCall.answer _ _ => true
  | BotCall.replyText _ _ _ => false

def isReply : BotCall → Bool
  | BotCall.answer _ _ => false
  | BotCall.replyText _ _ _ => true

/-- Number of invocations of the acknowledgement primitive in a trace
(successful or not). -/
def countAnswers (tr : List (BotCall × Bool)) : Nat :=
  (tr.filter fun p => isAnswer p.1).length

/-- The reply-send attempts in a trace. -/
def sentReplies (tr : List (BotCall × Bool)) : List (BotCall × Bool) :=
  tr.filter fun p => isReply p.1

/-- Fields of an `Update` carrying a message, as the slash-command handlers
see it: whether `update.message` is present, and the requester id. -/
structure MessageUpdate where
  hasMessage : Bool
  userId : Nat

/-- Fields of an `Update` carrying a callback query, as `button_callback`
sees it: whether `update.callback_query` is present, its `data`
(`none` = attribute absent), whether `query.message` is present, and the
requester id. -/
structure CallbackUpdate where
  hasQuery : Bool
  data : Option String
  hasMessage : Bool
  userId : Nat

/-- Python truthiness test `not query.data`: true when the attribute is
absent or the string is empty. -/
def dataFalsy : Option String → Bool
  | none => true
  | some s => s.data.isEmpty

/-- The characters of the payload-prefix literal `"cmd_"`. -/
def cmdMarker : List Char := ['c', 'm', 'd', '_']

/-- `query.data.startswith("cmd_")`, bot.py line 139. -/
def startsWithCmd (s : String) : Bool := s.data.take 4 == cmdMarker

/-- Python `str.replace("cmd_", "")` on the character list: removes every
non-overlapping occurrence of `"cmd_"`, scanning left to right. -/
def removeCmd : List Char → List Char
  | 'c' :: 'm' :: 'd' :: '_' :: rest => removeCmd rest
  | c :: rest => c :: removeCmd rest
  | [] => []

/-- `command_name = query.data.replace("cmd_", "")`, bot.py line 140. -/
def recoveredName (s : String) : String := ⟨removeCmd s.data⟩

/-- The inline keyboard built by the `/play` handler, bot.py lines 57-59. -/
def playKeyboard : List (List InlineButton) :=
  [[InlineButton.urlButton BUTTON_TEXT LOTTERY_URL]]

/-- The inline keyboard built inside the button-press play branch,
bot.py lines 152-154 (duplicated code in the source). -/
def buttonPlayKeyboard : List (List InlineButton) :=
  [[InlineButton.urlButton BUTTON_TEXT LOTTERY_URL]]

/-- The keyboard-building loop of the `/menu` handler, bot.py lines 86-96:
start from an empty list and append one single-button row per registry
entry. -/
def buildMenuKeyboard (cmds : List BotCommand) : List (List InlineButton) :=
  cmds.foldl
    (fun keyboard cmd =>
      keyboard ++ [[InlineButton.callbackButton ("▶ " ++ cmd.command) ("cmd_" ++ cmd.command)]])
    []

/-- The keyboard-building loop inside the button-press menu branch,
bot.py lines 164-173 (duplicated code in the source). -/
def buildButtonMenuKeyboard (cmds : List BotCommand) : List (List InlineButton) :=
  cmds.foldl
    (fun keyboard cmd =>
      keyboard ++ [[InlineButton.callbackButton ("▶ " ++ cmd.command) ("cmd_" ++ cmd.command)]])
    []

def menuKeyboard : List (List InlineButton) := buildMenuKeyboard BOT_COMMANDS

def buttonMenuKeyboard : List (List InlineButton) := buildButtonMenuKeyboard BOT_COMMANDS

/-- The `/start` handler, bot.py lines 28-47.  Early-returns with no calls
when `update.message` is absent; otherwise attempts the acknowledgement
reply (call 0) and, on failure, attempts one generic fallback reply
(call 1), whose own failure is only logged. -/
def start (u : MessageUpdate) (ok : Nat → Bool) : List (BotCall × Bool) :=
  if u.hasMessage = false then []
  else if ok 0 = true then [(BotCall.replyText startAckText none none, true)]
  else
    [(BotCall.replyText startAckText none none, false),
     (BotCall.replyText "Sorry, an error occurred. Please try again later." none none, ok 1)]

/-- The `/play` handler, bot.py lines 50-75. -/
def play_command (u : MessageUpdate) (ok : Nat → Bool) : List (BotCall × Bool) :=
  if u.hasMessage = false then []
  else if ok 0 = true then
    [(BotCall.replyText START_MESSAGE none (some playKeyboard), true)]
  else
    [(BotCall.replyText START_MESSAGE none (some playKeyboard), false),
     (BotCall.replyText "Sorry, an error occurred. Please try again later." none none, ok 1)]

/-- The `/menu` handler, bot.py lines 78-114. -/
def menu_command (u : MessageUpdate) (ok : Nat → Bool) : List (BotCall × Bool) :=
  if u.hasMessage = false then []
  else if ok 0 = true then
    [(BotCall.replyText MENU_TITLE (some "HTML") (some menuKeyboard), true)]
  else
    [(BotCall.replyText MENU_TITLE (some "HTML") (some menuKeyboard), false),
     (BotCall.replyText "Sorry, an error occurred while showing the menu. Please try again later."
        none none, ok 1)]

/-- The alert-style answer attempted by `button_callback`'s `except` block,
bot.py lines 187-190. -/
def errorAlertAnswer : BotCall :=
  BotCall.answer (some "Sorry, an error occurred. Please try again.") true

/-- The command-dispatch block of `button_callback`, bot.py lines 142-181:
compares the recovered command name against "start" / "play" / "menu" by
string equality and sends the corresponding reply; any other name falls
through with no further calls.  Call indices continue from the
acknowledgement (call 0), so the reply is call 1 and, if it fails, the
`except` block's alert answer is call 2. -/
def dispatchOn (name : String) (ok : Nat → Bool) : List (BotCall × Bool) :=
  if name = "start" then
    if ok 1 = true then [(BotCall.replyText startAckText none none, true)]
    else [(BotCall.replyText startAckText none none, false), (errorAlertAnswer, ok 2)]
  else if name = "play" then
    if ok 1 = true then [(BotCall.replyText START_MESSAGE none (some buttonPlayKeyboard), true)]
    else [(BotCall.replyText START_MESSAGE none (some buttonPlayKeyboard), false),
          (errorAlertAnswer, ok 2)]
  else if name = "menu" then
    if ok 1 = true then
      [(BotCall.replyText MENU_TITLE (some "HTML") (some buttonMenuKeyboard), true)]
    else [(BotCall.replyText MENU_TITLE (some "HTML") (some buttonMenuKeyboard), false),
          (errorAlertAnswer, ok 2)]
  else []

/-- The button-press handler `button_callback`, bot.py lines 117-192.
Order of effects follows the source: early return with no calls when the
callback query is absent; an informational answer (and return) when `data`
is falsy or `query.message` is absent; otherwise `query.answer()` (call 0)
followed by the dispatch block.  Any transport failure raises into the
`except` block, which attempts one alert-style answer (its own failure is
only logged). -/
def button_callback (u : CallbackUpdate) (ok : Nat → Bool) : List (BotCall × Bool) :=
  if u.hasQuery = false then []
  else if dataFalsy u.data = true then
    if ok 0 = true then [(BotCall.answer (some "Invalid button data") false, true)]
    else [(BotCall.answer (some "Invalid button data") false, false), (errorAlertAnswer, ok 1)]
  else if u.hasMessage = false then
    if ok 0 = true then [(BotCall.answer (some "Message not found") false, true)]
    else [(BotCall.answer (some "Message not found") false, false), (errorAlertAnswer, ok 1)]
  else if ok 0 = false then
    [(BotCall.answer none false, false), (errorAlertAnswer, ok 1)]
  else if startsWithCmd (u.data.getD "") = true then
    (BotCall.answer none false, true) :: dispatchOn (recoveredName (u.data.getD "")) ok
  else
    [(BotCall.answer none false, true)]

/-- The registry-publishing calls made during startup, bot.py lines 209-224. -/
inductive RegistryCall where
  | deleteCommands
  | setCommands
deriving DecidableEq

structure PostInitResult where
  calls : List (RegistryCall × Bool)
  raised : Bool
deriving DecidableEq

/-- `post_init`, bot.py lines 209-224: `delete_my_commands` is attempted
first inside an inner `try` whose `except` only logs, so execution always
continues to `set_my_commands`; the outer `try`'s `except` only logs, so no
failure of either step propagates to the caller (`raised` is always
false). -/
def post_init (deleteOk setOk : Bool) : PostInitResult :=
  let afterDelete := [(RegistryCall.deleteCommands, deleteOk)]
  if setOk = true then ⟨afterDelete ++ [(RegistryCall.setCommands, true)], false⟩
  else ⟨afterDelete ++ [(RegistryCall.setCommands, false)], false⟩

/-- The token literal embedded as the `os.getenv` default, bot.py line 229. -/
def EMBEDDED_TOKEN : String := "8494619697:AAG91Y2BkW-_u__Vob7czhcmQoPrxcBijpM"

/-- Outcome of `main`'s startup path, bot.py lines 226-256: whether the
missing-token branch logged and returned, whether the Application was
built and started, and which token was used. -/
structure MainOutcome where
  loggedMissingToken : Bool
  startedClient : Bool
  tokenUsed : Option String
deriving DecidableEq

/-- `main`'s startup logic, bot.py lines 226-251.  `os.getenv("BOT_TOKEN",
EMBEDDED_TOKEN)` yields the environment value when the variable is set
(`envBotToken = some v`) and the embedded default when it is unset
(`envBotToken = none`); `if not TOKEN` then tests string truthiness. -/
def mainStartup (envBotToken : Option String) : MainOutcome :=
  let TOKEN := envBotToken.getD EMBEDDED_TOKEN
  if TOKEN.data.isEmpty = true then ⟨true, false, none⟩
  else ⟨false, true, some TOKEN⟩

/-- Substring-leading test on character lists. -/
def listLeads : List Char → List Char → Bool
  | [], _ => true
  | _ :: _, [] => false
  | a :: as, b :: bs => a == b && listLeads as bs

/-- Substring-containment test on character lists. -/
def containsSub : List Char → List Char → Bool
  | needle, [] => needle.isEmpty
  | needle, c :: t => listLeads needle (c :: t) || containsSub needle t

/-! ## Helper lemmas -/

theorem countAnswers_nil : countAnswers [] = 0 := rfl

theorem countAnswers_answer_cons (t : Option String) (a b : Bool) (tr : List (BotCall × Bool)) :
    countAnswers ((BotCall.answer t a, b) :: tr) = countAnswers tr + 1 := by
  simp [countAnswers, isAnswer]

theorem countAnswers_reply_cons (s : String) (pm : Option String)
    (mk : Option (List (List InlineButton))) (b : Bool) (tr : List (BotCall × Bool)) :
    countAnswers ((BotCall.replyText s pm mk, b) :: tr) = countAnswers tr := by
  simp [countAnswers, isAnswer]

theorem sentReplies_nil : sentReplies [] = [] := rfl

theorem sentReplies_answer_cons (t : Option String) (a b : Bool) (tr : List (BotCall × Bool)) :
    sentReplies ((BotCall.answer t a, b) :: tr) = sentReplies tr := by
  simp [sentReplies, isReply]

theorem dispatchOn_countAnswers_le (n : String) (ok : Nat → Bool) :
    countAnswers (dispatchOn n ok) ≤ 1 := by
  unfold dispatchOn
  repeat' split
  all_goals simp [countAnswers, isAnswer, errorAlertAnswer]

theorem dispatchOn_countAnswers_allOk (n : String) (ok : Nat → Bool) (h : ok 1 = true) :
    countAnswers (dispatchOn n ok) = 0 := by
  unfold dispatchOn
  repeat' split
  all_goals simp_all [countAnswers, isAnswer, errorAlertAnswer]

theorem buildMenuKeyboard_go (cmds : List BotCommand) (acc : List (List InlineButton)) :
    cmds.foldl
        (fun keyboard cmd =>
          keyboard ++ [[InlineButton.callbackButton ("▶ " ++ cmd.command) ("cmd_" ++ cmd.command)]])
        acc
      = acc ++ cmds.map (fun c => [InlineButton.callbackButton ("▶ " ++ c.command) ("cmd_" ++ c.command)]) := by
  induction cmds generalizing acc with
  | nil => simp
  | cons c t ih => simp [List.foldl, ih]

theorem buildMenuKeyboard_eq_map (cmds : List BotCommand) :
    buildMenuKeyboard cmds
      = cmds.map (fun c => [InlineButton.callbackButton ("▶ " ++ c.command) ("cmd_" ++ c.command)]) := by
  unfold buildMenuKeyboard
  rw [buildMenuKeyboard_go]
  simp

/-! ## Claim theorems -/

/-- C1 (code bug): the claim says that with the secret token absent from the
environment, startup logs the condition and terminates without building the
transport client, and that no hardcoded default token is used.  The code
instead passes an embedded literal token as the `os.getenv` default: with
`BOT_TOKEN` unset, the missing-token branch is not taken, the client is
built and started, and the embedded token is used; the guard can only fire
for an explicitly empty value.  The code contradicts its own (dead)
missing-token guard and the documented intent. -/
theorem C1_missingTokenFallback :
    mainStartup none = ⟨false, true, some EMBEDDED_TOKEN⟩ ∧
    EMBEDDED_TOKEN ≠ "" ∧
    mainStartup (some "") = ⟨true, false, none⟩ := by decide

/-- C5 (confirmed): for a valid `/menu` command with no transport failure,
`menu_command` sends one reply whose text is the fixed menu title, with one
callback button per registry entry, in registry order, each payload being
"cmd_" concatenated with the command name, and each label containing the
command name; concretely the three payloads are cmd_start, cmd_play,
cmd_menu. -/
theorem C5_menuReply (uid : Nat) :
    menu_command ⟨true, uid⟩ (fun _ => true)
        = [(BotCall.replyText MENU_TITLE (some "HTML") (some menuKeyboard), true)] ∧
    menuKeyboard
        = BOT_COMMANDS.map
            (fun c => [InlineButton.callbackButton ("▶ " ++ c.command) ("cmd_" ++ c.command)]) ∧
    menuKeyboard = [[InlineButton.callbackButton "▶ start" "cmd_start"],
                    [InlineButton.callbackButton "▶ play" "cmd_play"],
                    [InlineButton.callbackButton "▶ menu" "cmd_menu"]] ∧
    containsSub "start".data "▶ start".data = true ∧
    containsSub "play".data "▶ play".data = true ∧
    containsSub "menu".data "▶ menu".data = true := by
  refine ⟨rfl, buildMenuKeyboard_eq_map BOT_COMMANDS, by decide, by decide, by decide, by decide⟩

/-- C6 (confirmed): for a valid `/play` command with no transport failure,
`play_command` sends one reply whose text is the fixed prompt and whose
only attached action is an external-link button with the configured
lottery URL and the fixed button label. -/
theorem C6_playReply (uid : Nat) :
    play_command ⟨true, uid⟩ (fun _ => true)
        = [(BotCall.replyText START_MESSAGE none (some playKeyboard), true)] ∧
    playKeyboard = [[InlineButton.urlButton BUTTON_TEXT LOTTERY_URL]] :=
  ⟨rfl, rfl⟩

/-- C8 (confirmed): for a valid `/start` command with no transport failure,
`start` sends one reply with exactly the fixed acknowledgement text and no
attached keyboard. -/
theorem C8_startReply (uid : Nat) :
    start ⟨true, uid⟩ (fun _ => true) = [(BotCall.replyText startAckText none none, true)] ∧
    startAckText = "Bot started. Use /play to open Lottery or /menu to see available commands." :=
  ⟨rfl, rfl⟩

/-- C9 (confirmed): startup publishes the registry by first clearing the
pre-existing list and then setting the current one, in that order, and no
failure of either step propagates out of `post_init` (so startup is not
aborted). -/
theorem C9_registryPublish (deleteOk setOk : Bool) :
    (post_init deleteOk setOk).calls
        = [(RegistryCall.deleteCommands, deleteOk), (RegistryCall.setCommands, setOk)] ∧
    (post_init deleteOk setOk).raised = false := by
  cases setOk <;> exact ⟨rfl, rfl⟩

/-- C10 (confirmed): the start, play, and menu reply builders are
independent of the requester: two message updates differing only in the
requester id produce identical call traces. -/
theorem C10_requesterIndependence (u v : MessageUpdate) (ok : Nat → Bool)
    (h : u.hasMessage = v.hasMessage) :
    start u ok = start v ok ∧
    play_command u ok = play_command v ok ∧
    menu_command u ok = menu_command v ok := by
  obtain ⟨m1, a⟩ := u
  obtain ⟨m2, b⟩ := v
  replace h : m1 = m2 := h
  subst h
  exact ⟨rfl, rfl, rfl⟩

/-- Witness for C10 at two concrete updates differing only in the
requester id. -/
theorem C10_requesterIndependence_witness :
    (⟨true, 0⟩ : MessageUpdate).hasMessage = (⟨true, 99⟩ : MessageUpdate).hasMessage ∧
    (start ⟨true, 0⟩ (fun _ => true) = start ⟨true, 99⟩ (fun _ => true) ∧
     play_command ⟨true, 0⟩ (fun _ => true) = play_command ⟨true, 99⟩ (fun _ => true) ∧
     menu_command ⟨true, 0⟩ (fun _ => true) = menu_command ⟨true, 99⟩ (fun _ => true)) :=
  ⟨rfl, C10_requesterIndependence ⟨true, 0⟩ ⟨true, 99⟩ (fun _ => true) rfl⟩

/-- C4 (confirmed): the reply sent for the button payload "cmd_menu" is
identical — same text, same action rows in the same order, same
payload-prefix scheme — to the reply sent by the direct `/menu` handler. -/
theorem C4_menuRoundTrip (uid uid2 : Nat) :
    sentReplies (button_callback ⟨true, some "cmd_menu", true, uid⟩ (fun _ => true))
        = sentReplies (menu_command ⟨true, uid2⟩ (fun _ => true)) ∧
    buttonMenuKeyboard = menuKeyboard :=
  ⟨rfl, rfl⟩

/-- C2 counterexample: the claim says the command name is recovered by
stripping the leading "cmd_" prefix, which on the payload "cmd_cmd_start"
(= "cmd_" followed by "cmd_start") yields the unknown name "cmd_start"
and hence NoOp with no reply.  The code instead removes every occurrence
of "cmd_" (Python `str.replace`), recovers "start", and sends the start
reply. -/
theorem C2_counterexample :
    ("cmd_" ++ "cmd_start" = "cmd_cmd_start") ∧
    ("cmd_start" ≠ "start" ∧ "cmd_start" ≠ "play" ∧ "cmd_start" ≠ "menu") ∧
    recoveredName "cmd_cmd_start" = "start" ∧
    sentReplies (button_callback ⟨true, some "cmd_cmd_start", true, 0⟩ (fun _ => true))
        = [(BotCall.replyText startAckText none none, true)] := by decide

/-- C2 (corrected): for every payload starting with "cmd_",
`button_callback` recovers the command name by removing every occurrence
of "cmd_" from the payload (not only the leading prefix) and dispatches by
exact string equality on the recovered name: "start", "play" and "menu"
get their respective reply builders, and any other recovered name yields
NoOp (no further calls) silently. -/
theorem C2_amendedDispatch (s n : String) (uid : Nat) (ok : Nat → Bool)
    (h : startsWithCmd s = true) (h0 : ok 0 = true) (h1 : ok 1 = true)
    (hn1 : n ≠ "start") (hn2 : n ≠ "play") (hn3 : n ≠ "menu") :
    button_callback ⟨true, some s, true, uid⟩ ok
        = (BotCall.answer none false, true) :: dispatchOn (recoveredName s) ok ∧
    dispatchOn "start" ok = [(BotCall.replyText startAckText none none, true)] ∧
    dispatchOn "play" ok
        = [(BotCall.replyText START_MESSAGE none (some buttonPlayKeyboard), true)] ∧
    dispatchOn "menu" ok
        = [(BotCall.replyText MENU_TITLE (some "HTML") (some buttonMenuKeyboard), true)] ∧
    dispatchOn n ok = [] := by
  have hne : s.data.isEmpty = false := by
    cases hd : s.data with
    | nil =>
        rw [startsWithCmd, hd] at h
        exact absurd h (by decide)
    | cons c t => simp [hd]
  refine ⟨?_, ?_, ?_, ?_, ?_⟩
  · simp [button_callback, dataFalsy, hne, h0, h]
  · simp [dispatchOn, h1]
  · simp [dispatchOn, h1]
  · simp [dispatchOn, h1]
  · simp [dispatchOn, hn1, hn2, hn3]

/-- Witness for C2 at the concrete payload "cmd_play" and unknown name
"unknown". -/
theorem C2_amendedDispatch_witness :
    startsWithCmd "cmd_play" = true ∧
    ("unknown" ≠ "start" ∧ "unknown" ≠ "play" ∧ "unknown" ≠ "menu") ∧
    (button_callback ⟨true, some "cmd_play", true, 7⟩ (fun _ => true)
        = (BotCall.answer none false, true)
            :: dispatchOn (recoveredName "cmd_play") (fun _ => true) ∧
     dispatchOn "start" (fun _ => true) = [(BotCall.replyText startAckText none none, true)] ∧
     dispatchOn "play" (fun _ => true)
        = [(BotCall.replyText START_MESSAGE none (some buttonPlayKeyboard), true)] ∧
     dispatchOn "menu" (fun _ => true)
        = [(BotCall.replyText MENU_TITLE (some "HTML") (some buttonMenuKeyboard), true)] ∧
     dispatchOn "unknown" (fun _ => true) = []) :=
  ⟨by decide, ⟨by decide, by decide, by decide⟩,
   C2_amendedDispatch "cmd_play" "unknown" 7 (fun _ => true) (by decide) rfl rfl
     (by decide) (by decide) (by decide)⟩

/-- C3 counterexample: the claim says the acknowledgement primitive is
invoked exactly once on the failure path as well.  With payload
"cmd_start" and a transport where the acknowledgement (call 0) succeeds
but the reply send (call 1) fails, the `except` block attempts a second,
alert-style acknowledgement, so the primitive is invoked twice. -/
theorem C3_counterexample :
    countAnswers (button_callback ⟨true, some "cmd_start", true, 0⟩ (fun n => n == 0)) = 2 := by
  decide

/-- C3 (corrected): for every update with a callback query present, the
acknowledgement primitive is invoked at least once and at most twice;
it is invoked exactly once whenever no transport call fails.  The second
invocation happens only on a failure path (the `except` block's
alert-style answer). -/
theorem C3_ackBounds (u : CallbackUpdate) (ok : Nat → Bool) (h : u.hasQuery = true) :
    1 ≤ countAnswers (button_callback u ok) ∧
    countAnswers (button_callback u ok) ≤ 2 ∧
    ((∀ n, ok n = true) → countAnswers (button_callback u ok) = 1) := by
  obtain ⟨hq, dat, hm, uid⟩ := u
  replace h : hq = true := h
  subst h
  by_cases hdf : dataFalsy dat = true
  · by_cases h0 : ok 0 = true
    · have e : button_callback ⟨true, dat, hm, uid⟩ ok
          = [(BotCall.answer (some "Invalid button data") false, true)] := by
        simp [button_callback, hdf, h0]
      rw [e]
      refine ⟨?_, ?_, fun _ => ?_⟩ <;>
        simp [countAnswers_answer_cons, countAnswers_nil]
    · have e : button_callback ⟨true, dat, hm, uid⟩ ok
          = [(BotCall.answer (some "Invalid button data") false, false),
             (errorAlertAnswer, ok 1)] := by
        simp [button_callback, hdf, h0]
      rw [e]
      refine ⟨?_, ?_, fun hall => absurd (hall 0) h0⟩ <;>
        simp [countAnswers_answer_cons, countAnswers_nil, errorAlertAnswer]
  · by_cases hhm : hm = false
    · by_cases h0 : ok 0 = true
      · have e : button_callback ⟨true, dat, hm, uid⟩ ok
            = [(BotCall.answer (some "Message not found") false, true)] := by
          simp [button_callback, hdf, hhm, h0]
        rw [e]
        refine ⟨?_, ?_, fun _ => ?_⟩ <;>
          simp [countAnswers_answer_cons, countAnswers_nil]
      · have e : button_callback ⟨true, dat, hm, uid⟩ ok
            = [(BotCall.answer (some "Message not found") false, false),
               (errorAlertAnswer, ok 1)] := by
          simp [button_callback, hdf, hhm, h0]
        rw [e]
        refine ⟨?_, ?_, fun hall => absurd (hall 0) h0⟩ <;>
          simp [countAnswers_answer_cons, countAnswers_nil, errorAlertAnswer]
    · by_cases h0 : ok 0 = true
      · by_cases hsw : startsWithCmd (dat.getD "") = true
        · have e : button_callback ⟨true, dat, hm, uid⟩ ok
              = (BotCall.answer none false, true)
                  :: dispatchOn (recoveredName (dat.getD "")) ok := by
            simp [button_callback, hdf, hhm, h0, hsw]
          rw [e]
          have hle := dispatchOn_countAnswers_le (recoveredName (dat.getD "")) ok
          refine ⟨?_, ?_, fun hall => ?_⟩
          · rw [countAnswers_answer_cons]; omega
          · rw [countAnswers_answer_cons]; omega
          · rw [countAnswers_answer_cons, dispatchOn_countAnswers_allOk _ _ (hall 1)]
        · have e : button_callback ⟨true, dat, hm, uid⟩ ok
              = [(BotCall.answer none false, true)] := by
            simp [button_callback, hdf, hhm, h0, hsw]
          rw [e]
          refine ⟨?_, ?_, fun _ => ?_⟩ <;>
            simp [countAnswers_answer_cons, countAnswers_nil]
      · have e : button_callback ⟨true, dat, hm, uid⟩ ok
            = [(BotCall.answer none false, false), (errorAlertAnswer, ok 1)] := by
          simp [button_callback, hdf, hhm, h0]
        rw [e]
        refine ⟨?_, ?_, fun hall => absurd (hall 0) h0⟩ <;>
          simp [countAnswers_answer_cons, countAnswers_nil, errorAlertAnswer]

/-- Witness for C3 at a concrete update with payload "cmd_play" and a
fully successful transport. -/
theorem C3_ackBounds_witness :
    (⟨true, some "cmd_play", true, 5⟩ : CallbackUpdate).hasQuery = true ∧
    (1 ≤ countAnswers (button_callback ⟨true, some "cmd_play", true, 5⟩ (fun _ => true)) ∧
     countAnswers (button_callback ⟨true, some "cmd_play", true, 5⟩ (fun _ => true)) ≤ 2 ∧
     ((∀ n, (fun _ => true : Nat → Bool) n = true) →
        countAnswers (button_callback ⟨true, some "cmd_play", true, 5⟩ (fun _ => true)) = 1)) :=
  ⟨rfl, C3_ackBounds ⟨true, some "cmd_play", true, 5⟩ (fun _ => true) rfl⟩

/-- C7 (confirmed): for every nonempty payload that either does not start
with "cmd_" or whose recovered command name is none of "start", "play",
"menu", `button_callback` sends no reply body (NoOp, no error surfaced),
and still invokes the acknowledgement primitive: when the acknowledgement
succeeds the whole trace is exactly that one successful answer. -/
theorem C7_unknownNoOp (s : String) (uid : Nat) (ok : Nat → Bool)
    (hne : s.data.isEmpty = false)
    (h : startsWithCmd s = false ∨
      (recoveredName s ≠ "start" ∧ recoveredName s ≠ "play" ∧ recoveredName s ≠ "menu")) :
    sentReplies (button_callback ⟨true, some s, true, uid⟩ ok) = [] ∧
    1 ≤ countAnswers (button_callback ⟨true, some s, true, uid⟩ ok) ∧
    (ok 0 = true →
      button_callback ⟨true, some s, true, uid⟩ ok = [(BotCall.answer none false, true)]) := by
  by_cases h0 : ok 0 = true
  · have e : button_callback ⟨true, some s, true, uid⟩ ok
        = [(BotCall.answer none false, true)] := by
      rcases h with hsw | ⟨hn1, hn2, hn3⟩
      · simp [button_callback, dataFalsy, hne, h0, hsw]
      · by_cases hsw : startsWithCmd s = true
        · simp [button_callback, dataFalsy, hne, h0, hsw, dispatchOn, hn1, hn2, hn3]
        · simp [button_callback, dataFalsy, hne, h0, hsw]
    rw [e]
    refine ⟨?_, ?_, fun _ => rfl⟩
    · simp [sentReplies_answer_cons, sentReplies_nil]
    · simp [countAnswers_answer_cons, countAnswers_nil]
  · have e : button_callback ⟨true, some s, true, uid⟩ ok
        = [(BotCall.answer none false, false), (errorAlertAnswer, ok 1)] := by
      simp [button_callback, dataFalsy, hne, h0]
    rw [e]
    refine ⟨?_, ?_, fun hc => absurd hc h0⟩
    · simp [sentReplies_answer_cons, sentReplies_nil, errorAlertAnswer]
    · simp [countAnswers_answer_cons, countAnswers_nil, errorAlertAnswer]

/-- Witness for C7 at the two boundary payloads named by the spec,
"cmd_unknown" and "nocommandprefix". -/
theorem C7_unknownNoOp_witness :
    "cmd_unknown".data.isEmpty = false ∧
    "nocommandprefix".data.isEmpty = false ∧
    sentReplies (button_callback ⟨true, some "cmd_unknown", true, 3⟩ (fun _ => true)) = [] ∧
    sentReplies (button_callback ⟨true, some "nocommandprefix", true, 4⟩ (fun _ => true)) = [] ∧
    button_callback ⟨true, some "cmd_unknown", true, 3⟩ (fun _ => true)
        = [(BotCall.answer none false, true)] :=
  ⟨by decide, by decide,
   (C7_unknownNoOp "cmd_unknown" 3 (fun _ => true) (by decide) (Or.inr (by decide))).1,
   (C7_unknownNoOp "nocommandprefix" 4 (fun _ => true) (by decide) (Or.inl (by decide))).1,
   (C7_unknownNoOp "cmd_unknown" 3 (fun _ => true) (by decide) (Or.inr (by decide))).2.2 rfl⟩
